import Mathlib

/-!
Verification of the NetAPI-Junos normalization core.

The repository's extractors consume decoded XML payloads (Python dicts,
lists, strings produced by xmltodict) and emit canonical records.  We embed
the payloads as the inductive type `PyVal`, embed the Python runtime
operations the extractors use (subscript, membership test, iteration,
equality) as functions into `Except PyErr`, and translate each extractor
from its source file (`netconf.py`, `device.py`, `mac.py`, `ospf.py`,
`routing.py`, `interfaces.py`, `vlans.py`) into a Lean function over this
model.  Theorems about the claims follow the definitions.
-/

/-- A decoded Python value as produced by xmltodict: `None`, booleans,
integers, strings, lists, and (insertion-ordered) dicts with string keys. -/
inductive PyVal where
  | none
  | bool (b : Bool)
  | int (n : Int)
  | str (s : String)
  | list (xs : List PyVal)
  | dict (kvs : List (String × PyVal))
deriving Repr

/-- Python exceptions that the embedded code can raise. -/
inductive PyErr where
  | typeError
  | keyError (k : String)
  | indexError
  | attributeError
deriving Repr, DecidableEq

/-- Lookup in an association list modelling a Python dict (keys are unique
in every payload this repository handles). -/
def lookupStr : List (String × PyVal) → String → Option PyVal
  | [], _ => Option.none
  | kv :: rest, key => if kv.1 == key then some kv.2 else lookupStr rest key

/-- Python substring test `needle in haystack` on strings. -/
def strContains (needle haystack : String) : Bool :=
  haystack.data.tails.any (fun t => needle.data.isPrefixOf t)

/-- Python `s.split(sep)` for a nonempty separator, on character lists:
greedy leftmost, non-overlapping; always at least one (possibly empty)
piece. -/
def splitSepGo (sep : List Char) : Nat → List Char → List (List Char)
  | _, [] => [[]]
  | 0, l => [l]
  | fuel + 1, c :: rest =>
    if !sep.isEmpty && sep.isPrefixOf (c :: rest) then
      [] :: splitSepGo sep fuel ((c :: rest).drop sep.length)
    else
      match splitSepGo sep fuel rest with
      | piece :: t => (c :: piece) :: t
      | [] => [[c]]

/-- `splitSepGo` with enough fuel for the whole input (the fuel only
makes the recursion structural; one unit is spent per input character
examined, so `l.length` always suffices). -/
def splitSep (sep l : List Char) : List (List Char) :=
  splitSepGo sep l.length l

/-- Python `s.split(sep)` on strings, for an explicit nonempty
separator. -/
def pySplitStr (s sep : String) : List String :=
  (splitSep sep.data s.data).map (fun l => ⟨l⟩)

/-- Value of a nonempty all-digit character list. -/
def digitsVal (l : List Char) : Option Nat :=
  match l with
  | [] => Option.none
  | _ =>
    l.foldlM
      (fun acc c =>
        if c.isDigit then some (acc * 10 + (c.toNat - '0'.toNat))
        else Option.none)
      0

/-- Python `int(t)` on a string of an optional minus sign and digits
(`Option.none` models ValueError). -/
def pyToInt (t : String) : Option Int :=
  match t.data with
  | '-' :: rest => (digitsVal rest).map (fun n => -(n : Int))
  | l => (digitsVal l).map (fun n => (n : Int))

/-- Python `==` between the scalar values this code base compares
(strings, ints, booleans, None).  The embedded code never compares
structured values, so those compare unequal here. -/
def pyValEq (a b : PyVal) : Bool :=
  match a, b with
  | .str x, .str y => x == y
  | .int x, .int y => x == y
  | .bool x, .bool y => x == y
  | .none, .none => true
  | _, _ => false

/-- Python `v == "lit"` for a string literal on the right. -/
def pyEqStr (v : PyVal) (s : String) : Bool :=
  pyValEq v (PyVal.str s)

/-- Python subscript `v[key]` with a string key: dict lookup (KeyError on a
missing key), TypeError on anything that is not a dict. -/
def PyVal.sub (v : PyVal) (key : String) : Except PyErr PyVal :=
  match v with
  | .dict kvs =>
    match lookupStr kvs key with
    | some x => .ok x
    | Option.none => .error (.keyError key)
  | _ => .error .typeError

/-- Python membership `key in v`: key test on a dict, substring test on a
string, element test on a list, TypeError otherwise. -/
def pyIn (key : String) (v : PyVal) : Except PyErr Bool :=
  match v with
  | .dict kvs => .ok (lookupStr kvs key).isSome
  | .str s => .ok (strContains key s)
  | .list xs => .ok (xs.any fun x => pyValEq x (PyVal.str key))
  | _ => .error .typeError

/-- Python iteration `for x in v`: a list yields its elements, a dict
yields its keys, a string yields its characters, anything else raises
TypeError (in particular iterating `None`). -/
def PyVal.iter (v : PyVal) : Except PyErr (List PyVal) :=
  match v with
  | .list xs => .ok xs
  | .dict kvs => .ok (kvs.map fun kv => PyVal.str kv.1)
  | .str s => .ok (s.data.map fun c => PyVal.str (String.singleton c))
  | _ => .error .typeError

/-- Python identity test `v is None`. -/
def PyVal.isNone (v : PyVal) : Bool :=
  match v with
  | .none => true
  | _ => false

/-- Python `v.split(sep)[1]` on a string value with a one-character
separator: AttributeError when `v` is not a string, IndexError when the
split has no second element. -/
def pySplitSecond (v : PyVal) (sep : String) : Except PyErr String :=
  match v with
  | .str s =>
    match (pySplitStr s sep).drop 1 with
    | t :: _ => .ok t
    | [] => .error .indexError
  | _ => .error .attributeError

/-- The shape normalizer: the `if type(x) is not list: x = [x]` pattern
that every canonicalizing extractor applies before iterating.  A list is
returned as its elements; any other (present) value becomes a one-element
sequence. -/
def normalizeShape (v : PyVal) : List PyVal :=
  match v with
  | .list xs => xs
  | _ => [v]

/-- Outcome of one transport call as seen by `Netconf.rpc_commands`:
either there is no session (`self.dev is None`), or the remote call raised
(`except Exception`), or it succeeded with a decoded payload. -/
inductive RpcResult where
  | noSession
  | failure (msg : String)
  | success (payload : PyVal)

/-- `Netconf.rpc_commands` (netconf.py): returns Python `None` when there
is no session, an `{'status': 'error', 'error': ...}` marker dict when the
call raised, and the decoded payload otherwise. -/
def Netconf.rpc_commands : RpcResult → PyVal
  | .noSession => PyVal.none
  | .failure e => PyVal.dict [("status", .str "error"), ("error", .str e)]
  | .success p => p

/-- `Device.license` (device.py): canonicalizes the raw
`get-license-information` payload stored in `self.raw_license`. -/
def Device.license (raw_license : PyVal) : Except PyErr PyVal := do
  let licInfo ← raw_license.sub "license-information"
  let noLic ← pyIn "no-licenses-installed" licInfo
  if noLic then
    return PyVal.dict [("licenses", .list [.dict [("lic_id", .none)]])]
  let devLicRaw ← licInfo.sub "license"
  let dev_licences := normalizeShape devLicRaw
  let lic_list ← dev_licences.mapM (fun licence => do
    let lic_id ← licence.sub "name"
    let fblock ← licence.sub "feature-block"
    let featRaw ← fblock.sub "feature"
    let features := normalizeShape featRaw
    let acc ← features.foldlM
      (fun acc lic_feature => do
        let n ← lic_feature.sub "name"
        let vinfo ← lic_feature.sub "validity-information"
        let edate ← vinfo.sub "end-date"
        let ex ← edate.sub "#text"
        pure (acc.1 ++ [n], some ex))
      (([] : List PyVal), (Option.none : Option PyVal))
    match acc.2 with
    | some ex =>
      pure (PyVal.dict [("lic_id", lic_id), ("name", .list acc.1), ("expiry", ex)])
    | Option.none =>
      pure (PyVal.dict [("lic_id", lic_id), ("name", .list acc.1)]))
  return PyVal.dict [("licenses", .list lic_list)]

/-- Default table from device.py: `RADIUS_TIMEOUT = 5`. -/
def RADIUS_TIMEOUT : PyVal := .int 5

/-- Default table from device.py: `RADIUS_RETRIES = 3`. -/
def RADIUS_RETRIES : PyVal := .int 3

/-- Default table from device.py: `RADIUS_ACCPORT = 1813`. -/
def RADIUS_ACCPORT : PyVal := .int 1813

/-- The loop body of `Device.radius` (device.py): canonicalize one raw
RADIUS server entry, applying the protocol defaults for absent optional
fields. -/
def radiusEntry (server : PyVal) : Except PyErr PyVal := do
  let name ← server.sub "name"
  let port ← server.sub "port"
  let acc_port ← do
    let h ← pyIn "accounting-port" server
    if h then server.sub "accounting-port" else pure RADIUS_ACCPORT
  let tmo ← do
    let h ← pyIn "timeout" server
    if h then server.sub "timeout" else pure RADIUS_TIMEOUT
  let retry ← do
    let h ← pyIn "retry" server
    if h then server.sub "retry" else pure RADIUS_RETRIES
  let source ← do
    let h ← pyIn "source-address" server
    if h then server.sub "source-address" else pure (PyVal.str "")
  return PyVal.dict
    [("server", name), ("port", port), ("acc_port", acc_port),
     ("timeout", tmo), ("retry", retry), ("source", source)]

/-- `Device.radius` (device.py): reads
`self.config['configuration']['system']['radius-server']`, normalizes its
shape, and canonicalizes each server entry. -/
def Device.radius (config : PyVal) : Except PyErr PyVal := do
  let c ← config.sub "configuration"
  let sys ← c.sub "system"
  let serversRaw ← sys.sub "radius-server"
  let servers := normalizeShape serversRaw
  let entries ← servers.mapM radiusEntry
  return PyVal.dict [("radius-servers", .list entries)]

/-- Loop body of the current-firmware branch of `Mac.mac` (mac.py):
fields `l2ng-l2-mac-address`, `l2ng-l2-mac-vlan-name`,
`l2ng-l2-mac-logical-interface` go to `mac`, `vlan`, `interface`. -/
def macEntryCurrent (address : PyVal) : Except PyErr PyVal := do
  let m ← address.sub "l2ng-l2-mac-address"
  let v ← address.sub "l2ng-l2-mac-vlan-name"
  let i ← address.sub "l2ng-l2-mac-logical-interface"
  return PyVal.dict [("mac", m), ("vlan", v), ("interface", i)]

/-- Loop body of the legacy branch of `Mac.mac` (mac.py): fields
`mac-address`, `mac-vlan`, `mac-interfaces-list`/`mac-interfaces` go to
`mac`, `vlan`, `interface`. -/
def macEntryLegacy (address : PyVal) : Except PyErr PyVal := do
  let m ← address.sub "mac-address"
  let v ← address.sub "mac-vlan"
  let ilist ← address.sub "mac-interfaces-list"
  let i ← ilist.sub "mac-interfaces"
  return PyVal.dict [("mac", m), ("vlan", v), ("interface", i)]

/-- `Mac.mac` (mac.py): detects which of the two mutually-exclusive raw
schema variants is present (`l2ng-l2ald-rtb-macdb` for current firmware,
`ethernet-switching-table-information` for legacy) and canonicalizes the
table of the detected variant.  Note that the raw table is iterated
directly (`for address in mac_table`), with no shape normalization. -/
def Mac.mac (mac_table : PyVal) : Except PyErr PyVal := do
  let hasNew ← pyIn "l2ng-l2ald-rtb-macdb" mac_table
  if hasNew then
    let db ← mac_table.sub "l2ng-l2ald-rtb-macdb"
    if !db.isNone then
      let vlanTbl ← db.sub "l2ng-l2ald-mac-entry-vlan"
      let tbl ← vlanTbl.sub "l2ng-mac-entry"
      let addrs ← tbl.iter
      let entries ← addrs.mapM macEntryCurrent
      return PyVal.dict [("entry", .list entries)]
    else
      return PyVal.dict [("entry", .list [])]
  else
    let hasOld ← pyIn "ethernet-switching-table-information" mac_table
    if hasOld then
      let esti ← mac_table.sub "ethernet-switching-table-information"
      let est ← esti.sub "ethernet-switching-table"
      let tbl ← est.sub "mac-table-entry"
      let addrs ← tbl.iter
      let entries ← addrs.mapM macEntryLegacy
      return PyVal.dict [("entry", .list entries)]
    else
      return PyVal.dict [("entry", .list [])]

/-- The duration components collected by the uptime loop in
`Device.__enter__` (device.py).  Each starts as the integer 0 and is
replaced by the first token of a matching item; `Option.none` models the
variable still holding its initial 0. -/
structure UpComps where
  days : Option String
  hours : Option String
  minutes : Option String
  seconds : Option String

/-- One iteration of the uptime loop (device.py): an item containing
`"days"` sets days to its first space-separated token, else `"hours"`,
else `"minutes"`, else `"seconds"`; other items are ignored. -/
def upStep (acc : UpComps) (item : String) : UpComps :=
  if strContains "days" item then
    { acc with days := some ((pySplitStr item " ").headD "") }
  else if strContains "hours" item then
    { acc with hours := some ((pySplitStr item " ").headD "") }
  else if strContains "minutes" item then
    { acc with minutes := some ((pySplitStr item " ").headD "") }
  else if strContains "seconds" item then
    { acc with seconds := some ((pySplitStr item " ").headD "") }
  else acc

/-- Python `int(x)` applied to a component: the untouched variable still
holds the integer 0; a captured token is parsed (ValueError, i.e.
`Option.none`, if it is not numeric). -/
def pyIntOf : Option String → Option Int
  | Option.none => some 0
  | some t => pyToInt t

/-- The uptime derivation from `Device.__enter__` (device.py): split the
native `up_time` string on `", "`, pick out the present duration
components, and combine them as
`days*86400 + hours*3600 + minutes*60 + seconds`. -/
def uptimeSeconds (up_time : String) : Option Int := do
  let comps := (pySplitStr up_time ", ").foldl upStep
    ⟨Option.none, Option.none, Option.none, Option.none⟩
  let d ← pyIntOf comps.days
  let h ← pyIntOf comps.hours
  let m ← pyIntOf comps.minutes
  let s ← pyIntOf comps.seconds
  return d * 86400 + h * 3600 + m * 60 + s

/-- The per-poll state built by `Ospf.__enter__` (ospf.py): the raw
overview payload, the capability flag, and the three further payloads.
`self.config`, `self.neighbour_info` and `self.interface_info` are
initialized to `None` and only assigned when OSPF is supported, so a
`PyVal.none` field means the corresponding fetch was never attempted. -/
structure OspfState where
  overview : PyVal
  supported : Bool
  config : PyVal
  neighbour_info : PyVal
  interface_info : PyVal

/-- The capability test in `Ospf.__enter__` (ospf.py): OSPF is
unsupported exactly when the overview reply has an `output` field whose
text contains `"not running"`. -/
def ospfSupported (overview : PyVal) : Except PyErr Bool := do
  let hasOut ← pyIn "output" overview
  if hasOut then
    let o ← overview.sub "output"
    let nr ← pyIn "not running" o
    return !nr
  else
    return true

/-- `Ospf.__enter__` (ospf.py) after the overview fetch: when the "not
running" marker is present, no further fetch happens and the three
payload slots keep their initial `None`; otherwise the configuration,
neighbour and interface payloads are fetched (passed here as the values
the transport would return). -/
def ospfEnter (overview cfg nbr itf : PyVal) : Except PyErr OspfState := do
  let s ← ospfSupported overview
  if s then
    return ⟨overview, true, cfg, nbr, itf⟩
  else
    return ⟨overview, false, PyVal.none, PyVal.none, PyVal.none⟩

/-- `Ospf.ospf` (ospf.py): general OSPF information, short-circuiting to
an empty shape when unsupported. -/
def Ospf.ospf (st : OspfState) : Except PyErr PyVal := do
  if st.supported = false then
    return PyVal.dict [("id", .str ""), ("reference", .str "")]
  let c ← st.config.sub "configuration"
  let protos ← c.sub "protocols"
  let o ← protos.sub "ospf"
  let hasBw ← pyIn "reference-bandwidth" o
  let bw ← if hasBw then o.sub "reference-bandwidth" else pure (PyVal.str "100mbps")
  let ovi ← st.overview.sub "ospf-overview-information"
  let ov ← ovi.sub "ospf-overview"
  let rid ← ov.sub "ospf-router-id"
  return PyVal.dict [("id", rid), ("reference", bw)]

/-- `Ospf.areas` (ospf.py): canonicalizes the per-area overview records,
short-circuiting to an empty shape when unsupported. -/
def Ospf.areas (st : OspfState) : Except PyErr PyVal := do
  if st.supported = false then
    return PyVal.dict [("areas", .str "")]
  let ovi ← st.overview.sub "ospf-overview-information"
  let ov ← ovi.sub "ospf-overview"
  let areasRaw ← ov.sub "ospf-area-overview"
  let areas := normalizeShape areasRaw
  let entries ← areas.mapM (fun area => do
    let i ← area.sub "ospf-area"
    let t ← area.sub "ospf-stub-type"
    let a ← area.sub "authentication-type"
    let nbrOv ← area.sub "ospf-nbr-overview"
    let n ← nbrOv.sub "ospf-nbr-up-count"
    return PyVal.dict
      [("id", i), ("type", t), ("authentication", a), ("neighbors", n)])
  return PyVal.dict [("areas", .list entries)]

/-- `Ospf.neighbours` (ospf.py): canonicalizes the neighbour payload,
short-circuiting to an empty shape when unsupported. -/
def Ospf.neighbours (st : OspfState) : Except PyErr PyVal := do
  if st.supported = false then
    return PyVal.dict [("neighbor", .str "")]
  let ni ← st.neighbour_info.sub "ospf-neighbor-information"
  let nbrRaw ← ni.sub "ospf-neighbor"
  let neighbour_list := normalizeShape nbrRaw
  let entries ← neighbour_list.mapM (fun neighbour => do
    let a ← neighbour.sub "neighbor-address"
    let i ← neighbour.sub "interface-name"
    let s ← neighbour.sub "ospf-neighbor-state"
    let n ← neighbour.sub "neighbor-id"
    return PyVal.dict
      [("address", a), ("interface", i), ("state", s), ("id", n)])
  return PyVal.dict [("neighbor", .list entries)]

/-- `Ospf.interfaces` (ospf.py): canonicalizes the interface payload,
short-circuiting to an empty shape when unsupported.  The raw interface
list is iterated directly, without shape normalization. -/
def Ospf.interfaces (st : OspfState) : Except PyErr PyVal := do
  if st.supported = false then
    return PyVal.dict [("interface", .list [])]
  let ii ← st.interface_info.sub "ospf-interface-information"
  let intRaw ← ii.sub "ospf-interface"
  let int_list ← intRaw.iter
  let entries ← int_list.mapM (fun interface => do
    let n ← interface.sub "interface-name"
    let s ← interface.sub "ospf-interface-state"
    let a ← interface.sub "ospf-area"
    let c ← interface.sub "neighbor-count"
    return PyVal.dict
      [("name", n), ("state", s), ("area", a), ("neighbors", c)])
  return PyVal.dict [("interface", .list entries)]

/-- Inner loop body of `Routing.routing_table` (routing.py): canonicalize
one `rt-entry` for a destination.  Returns `Option.none` for the
`Access-internal` protocol (the `continue` in the source). -/
def routeEntryFor (destination specific_route : PyVal) :
    Except PyErr (Option PyVal) := do
  let protocol ← specific_route.sub "protocol-name"
  if pyEqStr protocol "Access-internal" then
    return Option.none
  let metric ←
    if pyEqStr protocol "Direct" || pyEqStr protocol "Local" then
      pure (PyVal.int 0)
    else if pyEqStr protocol "Static" then do
      let hasM ← pyIn "metric" specific_route
      if !hasM then pure (PyVal.int 1) else specific_route.sub "metric"
    else
      specific_route.sub "metric"
  let nhPart ← do
    let hasNh ← pyIn "nh" specific_route
    if hasNh then
      let nhRaw ← specific_route.sub "nh"
      let next_hop := normalizeShape nhRaw
      let hops ← next_hop.mapM (fun hop => do
        let hasTo ← pyIn "to" hop
        let hv ← if hasTo then hop.sub "to" else pure PyVal.none
        let hasVia ← pyIn "via" hop
        let vv ← if hasVia then hop.sub "via" else pure PyVal.none
        return PyVal.dict [("hop", hv), ("interface", vv)])
      pure [("next_hop", PyVal.list hops)]
    else
      pure []
  return some (PyVal.dict
    ([("protocol", protocol), ("route", destination), ("metric", metric)]
      ++ nhPart))

/-- `Routing.routing_table` (routing.py): select the `inet.0` table (the
loop with `break`; later tables are not inspected once it is found),
then canonicalize every route entry of every route, skipping
`Access-internal` entries.  `ipv4_table` keeps its initial `None` when no
table matches, and iterating it then raises TypeError. -/
def Routing.routing_table (routing : PyVal) : Except PyErr PyVal := do
  let ri ← routing.sub "route-information"
  let tblRaw ← ri.sub "route-table"
  let table_list := normalizeShape tblRaw
  let ipv4_table ← table_list.foldlM
    (fun found table => do
      match found with
      | some t => pure (some t)
      | Option.none => do
        let tn ← table.sub "table-name"
        if pyEqStr tn "inet.0" then do
          let rt ← table.sub "rt"
          pure (some rt)
        else
          pure (Option.none : Option PyVal))
    (Option.none : Option PyVal)
  let ipv4 := match ipv4_table with
    | some t => t
    | Option.none => PyVal.none
  let routes ← ipv4.iter
  let groups ← routes.mapM (fun route => do
    let destination ← route.sub "rt-destination"
    let reRaw ← route.sub "rt-entry"
    let route_entry := normalizeShape reRaw
    let opts ← route_entry.mapM (routeEntryFor destination)
    pure (opts.filterMap id))
  return PyVal.dict [("entry", .list groups.flatten)]

/-- `Vlan.vlans` (vlans.py): guarded by `if 'vlans' in self.config:` (a
test on the TOP-level keys of the decoded configuration payload), then
iterates `self.config['configuration']['vlans']['vlan']` directly,
defaulting `description` to the empty string and the `irb` (Layer-3
interface) binding to `None`. -/
def Vlan.vlans (config : PyVal) : Except PyErr PyVal := do
  let hasV ← pyIn "vlans" config
  if hasV then
    let c ← config.sub "configuration"
    let vs ← c.sub "vlans"
    let vlist ← vs.sub "vlan"
    let items ← vlist.iter
    let entries ← items.mapM (fun vlan => do
      let vid ← vlan.sub "vlan-id"
      let nm ← vlan.sub "name"
      let desc ← do
        let h ← pyIn "description" vlan
        if h then vlan.sub "description" else pure (PyVal.str "")
      let irb ← do
        let h ← pyIn "l3-interface" vlan
        if h then vlan.sub "l3-interface" else pure PyVal.none
      return PyVal.dict
        [("id", vid), ("name", nm), ("description", desc), ("irb", irb)])
    return PyVal.dict [("vlans", .list entries)]
  else
    return PyVal.dict [("vlans", .list [])]

/-- The interface names excluded by the chain of
`if item['name'] == '...': continue` tests in `Interfaces.interfaces`
(interfaces.py). -/
def internalIfNames : List String :=
  ["gr-0/0/0", "ip-0/0/0", "lsq-0/0/0", "lt-0/0/0", "mt-0/0/0", "sp-0/0/0",
   "dl0", "esi", "fti0", "gre", "ipip", "jsrv", "lsi", "mtun", "pimd",
   "pime", "pp0", "ppd0", "ppe0", "rbeb", "tap", "vtep", "pfe-0/0/0",
   "pfh-0/0/0", "bme0", "cbp0", "pip0"]

/-- The PoE loop of `Interfaces.interfaces` (interfaces.py): for EVERY
element of `self.poe['poe']['interface-information']` the code first
resets `entry['poe']` to the all-false dict and only then checks whether
that element's `interface-name` matches; a match populates the dict and
`continue`s to the next element (which resets it again).  The result is
therefore determined by the last element alone.  Returns `Option.none`
when the loop body never ran (empty raw list), in which case the `poe`
key is never created. -/
def poeOverlay (poe entryName : PyVal) :
    Except PyErr (Option (List (String × PyVal))) := do
  let p ← poe.sub "poe"
  let infoRaw ← p.sub "interface-information"
  let items ← infoRaw.iter
  items.foldlM
    (fun _cur poeItem => do
      let base : List (String × PyVal) :=
        [("admin", .bool false), ("operational", .bool false),
         ("max_power", .bool false), ("power_used", .bool false)]
      let iname ← poeItem.sub "interface-name"
      if pyValEq iname entryName then do
        let en ← poeItem.sub "interface-enabled"
        let admin := pyEqStr en "Enabled"
        let stt ← poeItem.sub "interface-status"
        let oper := pyEqStr stt "on"
        let maxp ← poeItem.sub "interface-power-limit"
        let pused ← poeItem.sub "interface-power"
        pure (some
          [("admin", .bool admin), ("operational", .bool oper),
           ("max_power", maxp), ("power_used", pused)])
      else
        pure (some base))
    (Option.none : Option (List (String × PyVal)))

/-- The sub-interface address-family loop body of `Interfaces.interfaces`
(interfaces.py).  The `inet` branch of the source executes
`interface(['address-family'])`, a call on a dict, which raises TypeError
whenever it is reached. -/
def subFamilyEntry (interface : PyVal) : Except PyErr PyVal := do
  let fam ← interface.sub "address-family-name"
  let desc ← do
    let h ← pyIn "description" interface
    if h then interface.sub "description" else pure (PyVal.str "")
  let hasFam ← pyIn "family" interface
  let addr ←
    if hasFam then do
      let f ← interface.sub "family"
      if pyEqStr f "inet" then
        throw PyErr.typeError
      else
        pure (PyVal.str "")
    else
      pure (PyVal.str "")
  return PyVal.dict
    [("family", fam), ("description", desc), ("address", addr)]

/-- The sub-interface loop body of `Interfaces.interfaces`
(interfaces.py): the logical-interface list and each sub-interface's
address-family list are both shape-normalized before iteration; a
sub-interface with no address family gets the empty string as its
`family`. -/
def subInterfaceEntry (sub_interface : PyVal) : Except PyErr PyVal := do
  let nm ← sub_interface.sub "name"
  let hasAf ← pyIn "address-family" sub_interface
  let famVal ←
    if hasAf then do
      let subRaw ← sub_interface.sub "address-family"
      let sub_list := normalizeShape subRaw
      let fams ← sub_list.mapM subFamilyEntry
      pure (PyVal.list fams)
    else
      pure (PyVal.str "")
  return PyVal.dict [("subinterface", nm), ("family", famVal)]

/-- The physical-interface loop body of `Interfaces.interfaces`
(interfaces.py).  Returns `Option.none` for excluded internal interfaces.
The `inet` address branch of the source computes
`f"{ip_address}"/"{mask}"`, a division of two strings, which raises
TypeError whenever it is reached. -/
def interfaceEntry (poe item : PyVal) : Except PyErr (Option PyVal) := do
  let name ← item.sub "name"
  if internalIfNames.any (fun n => pyEqStr name n) then
    return Option.none
  let mac ← do
    let h ← pyIn "current-physical-address" item
    if h then do
      let cpa ← item.sub "current-physical-address"
      let ht ← pyIn "#text" cpa
      if ht then cpa.sub "#text" else pure cpa
    else
      pure (PyVal.str "")
  let speed ← do
    let h ← pyIn "speed" item
    if h then item.sub "speed" else pure (PyVal.str "")
  let desc ← do
    let h ← pyIn "description" item
    if h then item.sub "description" else pure (PyVal.str "")
  let hasAf ← pyIn "address-family" item
  let family ←
    if hasAf then do
      let af ← item.sub "address-family"
      af.sub "address-family-name"
    else
      pure (PyVal.str "")
  let address ←
    if pyEqStr family "inet" then do
      let af ← item.sub "address-family"
      let maskRaw ← af.sub "ifa-destination"
      let _mask ← pySplitSecond maskRaw "/"
      let af2 ← item.sub "address-family"
      let _ip ← af2.sub "ifa-local"
      throw PyErr.typeError
    else
      pure (PyVal.str "")
  let counters ← do
    let h ← pyIn "traffic-statistics" item
    if h then do
      let stats ← item.sub "traffic-statistics"
      let bpsIn ← do
        let hb ← pyIn "input-bps" stats
        if hb then stats.sub "input-bps" else pure (PyVal.int 0)
      let bpsOut ← do
        let hb ← pyIn "output-bps" stats
        if hb then stats.sub "output-bps" else pure (PyVal.int 0)
      let ppsIn ← do
        let hb ← pyIn "input-pps" stats
        if hb then stats.sub "input-pps" else pure (PyVal.int 0)
      let ppsOut ← do
        let hb ← pyIn "output-pps" stats
        if hb then stats.sub "output-pps" else pure (PyVal.int 0)
      pure (PyVal.dict
        [("bps_in", bpsIn), ("bps_out", bpsOut),
         ("pps_in", ppsIn), ("pps_out", ppsOut)])
    else
      pure (PyVal.dict [])
  let subins ← do
    let h ← pyIn "logical-interface" item
    if h then do
      let liRaw ← item.sub "logical-interface"
      let sub_interfaces := normalizeShape liRaw
      let subs ← sub_interfaces.mapM subInterfaceEntry
      pure (PyVal.list subs)
    else
      pure (PyVal.list [])
  let poePart ←
    if !poe.isNone then do
      let ov ← poeOverlay poe name
      match ov with
      | some kvs => pure [("poe", PyVal.dict kvs)]
      | Option.none => pure []
    else
      pure ([] : List (String × PyVal))
  return some (PyVal.dict
    ([("name", name), ("mac", mac), ("speed", speed),
      ("description", desc), ("family", family), ("address", address),
      ("counters", counters), ("subinterfaces", subins)] ++ poePart))

/-- `Interfaces.interfaces` (interfaces.py): iterates the raw
physical-interface list directly and canonicalizes each non-excluded
interface, overlaying PoE data when a PoE payload was fetched
(`self.poe is not None`). -/
def Interfaces.interfaces (interface_list poe : PyVal) :
    Except PyErr PyVal := do
  let ii ← interface_list.sub "interface-information"
  let phys ← ii.sub "physical-interface"
  let items ← phys.iter
  let entries ← items.mapM (interfaceEntry poe)
  return PyVal.dict [("interfaces", .list (entries.filterMap id))]

/-- Python `s.split(sep)` for a one-character separator, on the character
list: always at least one (possibly empty) piece, one extra piece per
separator occurrence. -/
def splitOnChar (sep : Char) : List Char → List (List Char)
  | [] => [[]]
  | c :: rest =>
    let r := splitOnChar sep rest
    if c = sep then [] :: r
    else
      match r with
      | h :: t => (c :: h) :: t
      | [] => [[c]]

/-- Python `s.split(sep)` for a one-character separator, on strings. -/
def pySplit (s : String) (sep : Char) : List String :=
  (splitOnChar sep s.data).map (fun l => ⟨l⟩)

/-- Python `s.rstrip('>')`: remove every trailing `'>'`. -/
def pyRstripGt (s : String) : String :=
  ⟨(s.data.reverse.dropWhile (fun c => c = '>')).reverse⟩

/-- One pass of the filter-building loop in `Netconf.get_config`
(netconf.py): a parameter containing `'/'` (a one-character substring
test, i.e. character membership) opens a tag per segment, strips the last
`'>'` to turn the innermost tag into a self-closing leaf, and closes the
remaining tags in reverse order (`reversed[1:]`); a parameter without
`'/'` becomes a single self-closing tag. -/
def buildOneFilter (acc parameter : String) : String :=
  if parameter.data.contains '/' then
    let new_entry := pySplit parameter '/'
    let rev := new_entry.reverse
    let opened := new_entry.foldl (fun a item => a ++ "<" ++ item ++ ">") acc
    let leafed := pyRstripGt opened ++ "/>"
    (rev.drop 1).foldl (fun a item => a ++ "</" ++ item ++ ">") leafed
  else
    acc ++ "<" ++ parameter ++ "/>"

/-- The filter expression built by `Netconf.get_config` (netconf.py) from
the `filter` keyword argument: the parameters' expansions between one
outer `<configuration>` container. -/
def getConfigFilter (params : List String) : String :=
  (params.foldl buildOneFilter "<configuration>") ++ "</configuration>"

/-- A tag of the selective-query expression, for stating the Filter
Builder contract. -/
inductive FilterTag where
  | opening (s : String)
  | closing (s : String)
  | leaf (s : String)

/-- Spec-side expansion of one path specifier (spec section 4.1): no
`'/'` gives one self-closing leaf tag; otherwise open a tag per segment
except the last, emit the last as a self-closing leaf, close the opened
tags in reverse order. -/
def tagsOfSpecifier (p : String) : List FilterTag :=
  if p.data.contains '/' then
    let segs := pySplit p '/'
    (segs.dropLast.map FilterTag.opening)
      ++ [FilterTag.leaf (segs.getLastD "")]
      ++ (segs.dropLast.reverse.map FilterTag.closing)
  else
    [FilterTag.leaf p]

/-- Spec-side token sequence for a whole specifier list, in input order,
one block per specifier (duplicates kept). -/
def specTokens (params : List String) : List FilterTag :=
  (params.map tagsOfSpecifier).flatten

/-- Concatenation of a list of strings. -/
def strJoin : List String → String
  | [] => ""
  | s :: rest => s ++ strJoin rest

/-- Textual form of one tag. -/
def renderTag : FilterTag → String
  | .opening s => "<" ++ s ++ ">"
  | .closing s => "</" ++ s ++ ">"
  | .leaf s => "<" ++ s ++ "/>"

/-- Textual form of a tag sequence. -/
def renderTags (ts : List FilterTag) : String :=
  strJoin (ts.map renderTag)

/-- Whether a tag is a self-closing leaf. -/
def FilterTag.isLeaf : FilterTag → Bool
  | .leaf _ => true
  | _ => false

/-- Number of self-closing leaf tags in a tag sequence. -/
def leafCount (ts : List FilterTag) : Nat :=
  ts.countP FilterTag.isLeaf

/-- Depth of each leaf in a tag sequence, counting the leaf itself and
every enclosing opened segment tag (the outer `<configuration>` container
is not counted). -/
def leafDepthsAux : Nat → List FilterTag → List Nat
  | _, [] => []
  | d, .opening _ :: rest => leafDepthsAux (d + 1) rest
  | d, .closing _ :: rest => leafDepthsAux (d - 1) rest
  | d, .leaf _ :: rest => (d + 1) :: leafDepthsAux d rest

/-- Depths of all leaves of a tag sequence, outermost depth 1. -/
def leafDepths (ts : List FilterTag) : List Nat :=
  leafDepthsAux 0 ts

/-- Well-formedness of a path specifier (spec section 4.1 declares empty
segments undefined behavior): every `'/'`-separated segment is nonempty
and does not end in `'>'`. -/
def WfSpecifier (p : String) : Prop :=
  ∀ seg ∈ pySplit p '/', seg ≠ "" ∧ seg.data.getLast? ≠ some '>'

/-- A legacy-variant MAC payload whose `mac-table-entry` arrived as a
single map (one entry on the device) rather than a list. -/
def macSingularLegacy : PyVal :=
  .dict [("ethernet-switching-table-information", .dict
    [("ethernet-switching-table", .dict
      [("mac-table-entry", .dict
        [("mac-address", .str "00:11:22:33:44:55"),
         ("mac-vlan", .str "v10"),
         ("mac-interfaces-list", .dict
           [("mac-interfaces", .str "ge-0/0/1.0")])])])])]

/-- A current-variant MAC payload with two entries. -/
def macCurrentSample : PyVal :=
  .dict [("l2ng-l2ald-rtb-macdb", .dict
    [("l2ng-l2ald-mac-entry-vlan", .dict
      [("l2ng-mac-entry", .list
        [.dict
          [("l2ng-l2-mac-address", .str "00:11:22:33:44:55"),
           ("l2ng-l2-mac-vlan-name", .str "v10"),
           ("l2ng-l2-mac-logical-interface", .str "ge-0/0/1.0")],
         .dict
          [("l2ng-l2-mac-address", .str "66:77:88:99:aa:bb"),
           ("l2ng-l2-mac-vlan-name", .str "v20"),
           ("l2ng-l2-mac-logical-interface", .str "ge-0/0/2.0")]])])])]

/-- A legacy-variant MAC payload carrying the same two entries as
`macCurrentSample`, in the legacy field names. -/
def macLegacySample : PyVal :=
  .dict [("ethernet-switching-table-information", .dict
    [("ethernet-switching-table", .dict
      [("mac-table-entry", .list
        [.dict
          [("mac-address", .str "00:11:22:33:44:55"),
           ("mac-vlan", .str "v10"),
           ("mac-interfaces-list", .dict
             [("mac-interfaces", .str "ge-0/0/1.0")])],
         .dict
          [("mac-address", .str "66:77:88:99:aa:bb"),
           ("mac-vlan", .str "v20"),
           ("mac-interfaces-list", .dict
             [("mac-interfaces", .str "ge-0/0/2.0")])]])])])]

/-- The canonical MAC table both sample payloads should canonicalize to. -/
def macCanonSample : PyVal :=
  .dict [("entry", .list
    [.dict [("mac", .str "00:11:22:33:44:55"), ("vlan", .str "v10"),
            ("interface", .str "ge-0/0/1.0")],
     .dict [("mac", .str "66:77:88:99:aa:bb"), ("vlan", .str "v20"),
            ("interface", .str "ge-0/0/2.0")]])]

/-- An OSPF overview reply from a device on which OSPF is not running. -/
def ospfDownOverview : PyVal :=
  .dict [("output", .str "\nOSPF instance is not running\n")]

/-- An OSPF overview reply from a device on which OSPF is running, with a
singular area overview. -/
def ospfUpOverview : PyVal :=
  .dict [("ospf-overview-information", .dict
    [("ospf-overview", .dict
      [("ospf-router-id", .str ""),
       ("ospf-area-overview", .dict
         [("ospf-area", .str ""),
          ("ospf-stub-type", .str "Not Stub"),
          ("authentication-type", .str "None"),
          ("ospf-nbr-overview", .dict
            [("ospf-nbr-up-count", .str "2")])])])])]

/-- An OSPF configuration payload with no reference bandwidth. -/
def ospfConfigSample : PyVal :=
  .dict [("configuration", .dict
    [("protocols", .dict [("ospf", .dict [])])])]

/-- An OSPF neighbour payload with a singular neighbour. -/
def ospfNeighbourSample : PyVal :=
  .dict [("ospf-neighbor-information", .dict
    [("ospf-neighbor", .dict
      [("neighbor-address", .str ""),
       ("interface-name", .str "ge-0/0/1.0"),
       ("ospf-neighbor-state", .str "Full"),
       ("neighbor-id", .str "")])])]

/-- An OSPF interface payload with one interface. -/
def ospfInterfaceSample : PyVal :=
  .dict [("ospf-interface-information", .dict
    [("ospf-interface", .list
      [.dict
        [("interface-name", .str "ge-0/0/1.0"),
         ("ospf-interface-state", .str "DR"),
         ("ospf-area", .str ""),
         ("neighbor-count", .str "1")]])])]

/-- The radius configuration of spec section 8's end-to-end scenario: one
server entry carrying only `name` and `port`, arriving as a singular
map. -/
def radiusSampleConfig : PyVal :=
  .dict [("configuration", .dict
    [("system", .dict
      [("radius-server", .dict
        [("name", .str "10.1.1.1"), ("port", .int 1812)])])])]

/-- The canonical record the radius scenario must produce. -/
def radiusSampleRecord : PyVal :=
  .dict [("server", .str "10.1.1.1"), ("port", .int 1812),
         ("acc_port", .int 1813), ("timeout", .int 5),
         ("retry", .int 3), ("source", .str "")]

/-- A routing payload: a non-inet table first, then `inet.0` holding a
Direct route with a raw metric, a Static route without one, a Static
route with metric `"50"`, an OSPF route, and an `Access-internal`
entry. -/
def routingSample : PyVal :=
  .dict [("route-information", .dict
    [("route-table", .list
      [.dict [("table-name", .str "inet6.0"), ("rt", .list [])],
       .dict [("table-name", .str "inet.0"), ("rt", .list
         [.dict [("rt-destination", .str "10.0.0.0/24"),
                 ("rt-entry", .dict
                   [("protocol-name", .str "Direct"),
                    ("metric", .str "99"),
                    ("nh", .dict [("via", .str "ge-0/0/0.0")])])],
          .dict [("rt-destination", .str "0.0.0.0/0"),
                 ("rt-entry", .dict
                   [("protocol-name", .str "Static"),
                    ("nh", .list [.dict
                      [("to", .str "10.0.0.1"),
                       ("via", .str "ge-0/0/0.0")]])])],
          .dict [("rt-destination", .str "192.168.1.0/24"),
                 ("rt-entry", .dict
                   [("protocol-name", .str "Static"),
                    ("metric", .str "50"),
                    ("nh", .dict [("to", .str "10.0.1.1")])])],
          .dict [("rt-destination", .str "172.16.0.0/16"),
                 ("rt-entry", .list
                   [.dict
                     [("protocol-name", .str "OSPF"),
                      ("metric", .str "10"),
                      ("nh", .dict [("to", .str "10.0.0.2"),
                                    ("via", .str "ge-0/0/1.0")])],
                    .dict
                     [("protocol-name", .str "Access-internal"),
                      ("metric", .str "7")]])]])]])])]

/-- The canonical routing table `routingSample` must produce. -/
def routingSampleCanon : PyVal :=
  .dict [("entry", .list
    [.dict [("protocol", .str "Direct"), ("route", .str "10.0.0.0/24"),
            ("metric", .int 0),
            ("next_hop", .list [.dict
              [("hop", .none), ("interface", .str "ge-0/0/0.0")]])],
     .dict [("protocol", .str "Static"), ("route", .str "0.0.0.0/0"),
            ("metric", .int 1),
            ("next_hop", .list [.dict
              [("hop", .str "10.0.0.1"),
               ("interface", .str "ge-0/0/0.0")]])],
     .dict [("protocol", .str "Static"), ("route", .str "192.168.1.0/24"),
            ("metric", .str "50"),
            ("next_hop", .list [.dict
              [("hop", .str "10.0.1.1"), ("interface", .none)]])],
     .dict [("protocol", .str "OSPF"), ("route", .str "172.16.0.0/16"),
            ("metric", .str "10"),
            ("next_hop", .list [.dict
              [("hop", .str "10.0.0.2"),
               ("interface", .str "ge-0/0/1.0")]])]])]

/-- A PoE payload with two entries; `ge-0/0/0` is matched by the FIRST
entry and `ge-0/0/1` by the LAST. -/
def poeSample : PyVal :=
  .dict [("poe", .dict
    [("interface-information", .list
      [.dict [("interface-name", .str "ge-0/0/0"),
              ("interface-enabled", .str "Enabled"),
              ("interface-status", .str "on"),
              ("interface-power-limit", .str "30.0W"),
              ("interface-power", .str "4.2W")],
       .dict [("interface-name", .str "ge-0/0/1"),
              ("interface-enabled", .str "Enabled"),
              ("interface-status", .str "on"),
              ("interface-power-limit", .str "15.4W"),
              ("interface-power", .str "3.0W")]])])]

/-- An interface payload with the single physical interface `ge-0/0/0`
(matched by the first PoE entry of `poeSample`). -/
def interfaceListFirstMatch : PyVal :=
  .dict [("interface-information", .dict
    [("physical-interface", .list
      [.dict [("name", .str "ge-0/0/0")]])])]

/-- An interface payload with the single physical interface `ge-0/0/1`
(matched by the last PoE entry of `poeSample`). -/
def interfaceListLastMatch : PyVal :=
  .dict [("interface-information", .dict
    [("physical-interface", .list
      [.dict [("name", .str "ge-0/0/1")]])])]

/-- The non-PoE part of the canonical record for a bare interface. -/
def bareIfFields (nm : String) : List (String × PyVal) :=
  [("name", .str nm), ("mac", .str ""), ("speed", .str ""),
   ("description", .str ""), ("family", .str ""), ("address", .str ""),
   ("counters", .dict []), ("subinterfaces", .list [])]

/-- The all-false PoE sub-record. -/
def poeAllFalse : PyVal :=
  .dict [("admin", .bool false), ("operational", .bool false),
         ("max_power", .bool false), ("power_used", .bool false)]

/-- A configuration payload carrying one vlan element, as
`Netconf.get_config` decodes it (top-level key `configuration`). -/
def vlansSampleConfig : PyVal :=
  .dict [("configuration", .dict
    [("vlans", .dict
      [("vlan", .list
        [.dict [("vlan-id", .str "10"), ("name", .str "v10")]])])])]

/-- Keys of a canonical record, in order. -/
def dictKeys : PyVal → List String
  | .dict kvs => kvs.map (fun kv => kv.1)
  | _ => []

/-- A legacy-variant MAC payload wrapping a given raw table value. -/
def legacyMacPayload (tbl : PyVal) : PyVal :=
  .dict [("ethernet-switching-table-information", .dict
    [("ethernet-switching-table", .dict [("mac-table-entry", tbl)])])]

/-- A current-variant MAC payload wrapping a given raw table value. -/
def currentMacPayload (tbl : PyVal) : PyVal :=
  .dict [("l2ng-l2ald-rtb-macdb", .dict
    [("l2ng-l2ald-mac-entry-vlan", .dict [("l2ng-mac-entry", tbl)])])]

/-- A configuration payload wrapping a given raw `radius-server` value at
the path `Device.radius` reads. -/
def radiusConfigOf (raw : PyVal) : PyVal :=
  .dict [("configuration", .dict
    [("system", .dict [("radius-server", raw)])])]

/-- The per-poll OSPF state when the "not running" marker was found: no
further payload was fetched. -/
def ospfDownState (overview : PyVal) : OspfState :=
  ⟨overview, false, PyVal.none, PyVal.none, PyVal.none⟩

/-- C1.  The transport layer itself degrades gracefully
(`Netconf.rpc_commands` returns `None` without a session and the
`{'status': 'error', ...}` marker dict when the call is rejected), but the
extractor layer parses these payloads unconditionally: `Device.license`
raises TypeError on the no-session payload and KeyError
`'license-information'` on the error-marker payload, instead of returning
a typed empty/unavailable result.  This exhibits the code-level failure
of the claim that every extractor short-circuits without crashing. -/
theorem c1_extractor_crashes_on_unavailable_transport :
    Netconf.rpc_commands .noSession = PyVal.none ∧
    Netconf.rpc_commands (.failure "rpc rejected") =
      PyVal.dict [("status", .str "error"), ("error", .str "rpc rejected")] ∧
    Device.license (Netconf.rpc_commands .noSession) =
      .error .typeError ∧
    Device.license (Netconf.rpc_commands (.failure "rpc rejected")) =
      .error (.keyError "license-information") :=
  ⟨rfl, rfl, rfl, rfl⟩

/-- C2 counterexample.  The MAC-table extractor iterates the raw table
without shape canonicalization: on a legacy payload whose single entry
arrived as a map rather than a one-element list, `Mac.mac` iterates the
dict keys and raises TypeError instead of producing the one-element
canonical table that the same entry wrapped in a list produces. -/
theorem c2_counterexample_mac_singular_entry :
    Mac.mac macSingularLegacy = .error .typeError ∧
    Mac.mac (legacyMacPayload (.list
      [.dict [("mac-address", .str "00:11:22:33:44:55"),
              ("mac-vlan", .str "v10"),
              ("mac-interfaces-list", .dict
                [("mac-interfaces", .str "ge-0/0/1.0")])]])) =
      .ok (.dict [("entry", .list
        [.dict [("mac", .str "00:11:22:33:44:55"), ("vlan", .str "v10"),
                ("interface", .str "ge-0/0/1.0")]])]) :=
  ⟨rfl, rfl⟩

/-- C9.  On `poeSample` (the matching entry `ge-0/0/0` is the FIRST of
two PoE entries) the canonical record for `ge-0/0/0` carries the
all-false PoE sub-record: the loop resets `entry['poe']` on every
iteration, so a populated match survives only when it is the LAST raw PoE
entry, as the second conjunct shows for `ge-0/0/1`.  This contradicts the
claimed merge rule that any name match populates the sub-record. -/
theorem c9_poe_overlay_reset_bug :
    Interfaces.interfaces interfaceListFirstMatch poeSample =
      .ok (.dict [("interfaces", .list
        [.dict (bareIfFields "ge-0/0/0" ++ [("poe", poeAllFalse)])])]) ∧
    Interfaces.interfaces interfaceListLastMatch poeSample =
      .ok (.dict [("interfaces", .list
        [.dict (bareIfFields "ge-0/0/1" ++ [("poe", .dict
          [("admin", .bool true), ("operational", .bool true),
           ("max_power", .str "15.4W"),
           ("power_used", .str "3.0W")])])])]) :=
  ⟨rfl, rfl⟩

/-- C10.  `Vlan.vlans` tests `'vlans' in self.config` against the
TOP-level keys of the decoded payload, but every payload produced by
`Netconf.get_config` is rooted at `configuration` (the very path the loop
body reads).  On a configuration carrying one vlan element the operation
therefore emits zero canonical records, not one. -/
theorem c10_vlans_guard_returns_empty :
    Vlan.vlans vlansSampleConfig = .ok (.dict [("vlans", .list [])]) ∧
    Vlan.vlans vlansSampleConfig ≠ .ok (.dict [("vlans", .list
      [.dict [("id", .str "10"), ("name", .str "v10"),
              ("description", .str ""), ("irb", .none)]])]) := by
  refine ⟨rfl, ?_⟩
  intro h
  have h0 : Vlan.vlans vlansSampleConfig =
      .ok (.dict [("vlans", .list [])]) := rfl
  rw [h0] at h
  simp at h

/-- A successful `mapM` over `Except` produces one output per input. -/
theorem exceptMapM_length {α β : Type} {f : α → Except PyErr β} :
    ∀ {xs : List α} {ys : List β}, xs.mapM f = .ok ys →
      ys.length = xs.length := by
  intro xs
  induction xs with
  | nil =>
    intro ys h
    simp only [List.mapM_nil, pure, Except.pure, Except.ok.injEq] at h
    simp [← h]
  | cons x xs ih =>
    intro ys h
    rw [List.mapM_cons] at h
    cases hx : f x with
    | error e => rw [hx] at h; simp [Bind.bind, Except.bind] at h
    | ok y =>
      rw [hx] at h
      cases hxs : xs.mapM f with
      | error e => rw [hxs] at h; simp [Bind.bind, Except.bind] at h
      | ok ys2 =>
        rw [hxs] at h
        simp only [Bind.bind, Except.bind, pure, Except.pure,
          Except.ok.injEq] at h
        subst h
        simp [ih hxs]

/-- Every output of a successful `mapM` over `Except` comes from some
input. -/
theorem exceptMapM_mem {α β : Type} {f : α → Except PyErr β} :
    ∀ {xs : List α} {ys : List β}, xs.mapM f = .ok ys →
      ∀ y ∈ ys, ∃ x ∈ xs, f x = .ok y := by
  intro xs
  induction xs with
  | nil =>
    intro ys h
    simp only [List.mapM_nil, pure, Except.pure, Except.ok.injEq] at h
    simp [← h]
  | cons x xs ih =>
    intro ys h
    rw [List.mapM_cons] at h
    cases hx : f x with
    | error e => rw [hx] at h; simp [Bind.bind, Except.bind] at h
    | ok y =>
      rw [hx] at h
      cases hxs : xs.mapM f with
      | error e => rw [hxs] at h; simp [Bind.bind, Except.bind] at h
      | ok ys2 =>
        rw [hxs] at h
        simp only [Bind.bind, Except.bind, pure, Except.pure,
          Except.ok.injEq] at h
        subst h
        intro z hz
        rcases List.mem_cons.mp hz with hz | hz
        · exact ⟨x, List.mem_cons_self x xs, by rw [hx, hz]⟩
        · rcases ih hxs z hz with ⟨x2, hx2, hfx2⟩
          exact ⟨x2, List.mem_cons_of_mem x hx2, hfx2⟩

/-- `mapM` over `Except` succeeds when every element canonicalizes, with
one output per input. -/
theorem exceptMapM_exists {α β : Type} {f : α → Except PyErr β} :
    ∀ {xs : List α}, (∀ x ∈ xs, ∃ y, f x = .ok y) →
      ∃ ys, xs.mapM f = .ok ys ∧ ys.length = xs.length := by
  intro xs
  induction xs with
  | nil => intro _; exact ⟨[], rfl, rfl⟩
  | cons x xs ih =>
    intro h
    rcases h x (List.mem_cons_self x xs) with ⟨y, hy⟩
    rcases ih (fun z hz => h z (List.mem_cons_of_mem x hz)) with ⟨ys, hys, hlen⟩
    refine ⟨y :: ys, ?_, by simp [hlen]⟩
    rw [List.mapM_cons, hy, hys]
    simp [Bind.bind, Except.bind, pure, Except.pure]

/-- A bound `Except` computation succeeds exactly when both stages do. -/
theorem bind_ok_iff {α β : Type} (x : Except PyErr α)
    (f : α → Except PyErr β) (y : β) :
    ((x >>= f) = .ok y) ↔ ∃ a, x = .ok a ∧ f a = .ok y := by
  cases x <;> simp [Bind.bind, Except.bind]

/-- `radiusEntry` on any raw server dict carrying `name` and `port`:
present optional fields pass through unchanged, absent ones get the
protocol defaults 1813/5/3/`""`. -/
theorem radiusEntry_spec (kvs : List (String × PyVal)) (n p : PyVal)
    (hn : lookupStr kvs "name" = some n)
    (hp : lookupStr kvs "port" = some p) :
    radiusEntry (.dict kvs) = .ok (.dict
      [("server", n), ("port", p),
       ("acc_port", (lookupStr kvs "accounting-port").getD RADIUS_ACCPORT),
       ("timeout", (lookupStr kvs "timeout").getD RADIUS_TIMEOUT),
       ("retry", (lookupStr kvs "retry").getD RADIUS_RETRIES),
       ("source", (lookupStr kvs "source-address").getD (PyVal.str ""))]) := by
  cases h1 : lookupStr kvs "accounting-port" <;>
  cases h2 : lookupStr kvs "timeout" <;>
  cases h3 : lookupStr kvs "retry" <;>
  cases h4 : lookupStr kvs "source-address" <;>
    simp [radiusEntry, PyVal.sub, pyIn, hn, hp, h1, h2, h3, h4,
      Bind.bind, Except.bind, Pure.pure, Except.pure]

/-- C7.  Every raw RADIUS server entry carrying `name` and `port` is
canonicalized with the protocol defaults (accounting port 1813, timeout
5, retries 3, source `""`) exactly when the raw field is absent
(`Option.getD` of the raw lookup), and with every present field passed
through unchanged; on the concrete raw entry
`{name: "10.1.1.1", port: 1812}` the full extractor produces exactly
`{server: "10.1.1.1", port: 1812, acc_port: 1813, timeout: 5, retry: 3,
source: ""}`. -/
theorem c7_radius_defaults :
    (∀ (kvs : List (String × PyVal)) (n p : PyVal),
      lookupStr kvs "name" = some n → lookupStr kvs "port" = some p →
      radiusEntry (.dict kvs) = .ok (.dict
        [("server", n), ("port", p),
         ("acc_port", (lookupStr kvs "accounting-port").getD RADIUS_ACCPORT),
         ("timeout", (lookupStr kvs "timeout").getD RADIUS_TIMEOUT),
         ("retry", (lookupStr kvs "retry").getD RADIUS_RETRIES),
         ("source", (lookupStr kvs "source-address").getD (PyVal.str ""))])) ∧
    Device.radius radiusSampleConfig =
      .ok (.dict [("radius-servers", .list [radiusSampleRecord])]) :=
  ⟨fun kvs n p hn hp => radiusEntry_spec kvs n p hn hp, rfl⟩

/-- C7 witness: the general part of `c7_radius_defaults` instantiated on
a raw entry with all optional fields absent and one with all present. -/
theorem c7_radius_defaults_witness :
    radiusEntry (.dict [("name", .str "10.1.1.1"), ("port", .int 1812)]) =
      .ok radiusSampleRecord ∧
    radiusEntry (.dict
      [("name", .str "10.1.1.2"), ("port", .int 1812),
       ("accounting-port", .int 1814), ("timeout", .int 10),
       ("retry", .int 4), ("source-address", .str "10.9.9.9")]) =
      .ok (.dict
        [("server", .str "10.1.1.2"), ("port", .int 1812),
         ("acc_port", .int 1814), ("timeout", .int 10),
         ("retry", .int 4), ("source", .str "10.9.9.9")]) :=
  ⟨c7_radius_defaults.1 [("name", .str "10.1.1.1"), ("port", .int 1812)]
      (.str "10.1.1.1") (.int 1812) rfl rfl,
   c7_radius_defaults.1
      [("name", .str "10.1.1.2"), ("port", .int 1812),
       ("accounting-port", .int 1814), ("timeout", .int 10),
       ("retry", .int 4), ("source-address", .str "10.9.9.9")]
      (.str "10.1.1.2") (.int 1812) rfl rfl⟩

/-- A successful legacy MAC entry is always the three-field canonical
record. -/
theorem macEntryLegacy_shape {a e : PyVal} (h : macEntryLegacy a = .ok e) :
    ∃ m v i, e = .dict [("mac", m), ("vlan", v), ("interface", i)] := by
  unfold macEntryLegacy at h
  rw [bind_ok_iff] at h
  rcases h with ⟨m, _, h⟩
  rw [bind_ok_iff] at h
  rcases h with ⟨v, _, h⟩
  rw [bind_ok_iff] at h
  rcases h with ⟨il, _, h⟩
  rw [bind_ok_iff] at h
  rcases h with ⟨i, _, h⟩
  simp only [pure, Except.pure, Except.ok.injEq] at h
  exact ⟨m, v, i, h.symm⟩

/-- A successful current MAC entry is always the three-field canonical
record. -/
theorem macEntryCurrent_shape {a e : PyVal} (h : macEntryCurrent a = .ok e) :
    ∃ m v i, e = .dict [("mac", m), ("vlan", v), ("interface", i)] := by
  unfold macEntryCurrent at h
  rw [bind_ok_iff] at h
  rcases h with ⟨m, _, h⟩
  rw [bind_ok_iff] at h
  rcases h with ⟨v, _, h⟩
  rw [bind_ok_iff] at h
  rcases h with ⟨i, _, h⟩
  simp only [pure, Except.pure, Except.ok.injEq] at h
  exact ⟨m, v, i, h.symm⟩

/-- C4.  `Mac.mac` detects which raw schema variant is present and
branches on it: a legacy-shaped payload canonicalizes through the
`mac-address`/`mac-vlan`/`mac-interfaces-list`.`mac-interfaces` fields, a
current-shaped payload through the `l2ng-l2-*` fields, every produced
entry has exactly the keys `mac`, `vlan`, `interface` under either
variant, and the two sample payloads carrying the same data in the two
variants canonicalize to the identical value. -/
theorem c4_mac_schema_variants :
    (∀ (addrs entries : List PyVal),
      addrs.mapM macEntryLegacy = .ok entries →
      Mac.mac (legacyMacPayload (.list addrs)) =
        .ok (.dict [("entry", .list entries)]) ∧
      ∀ e ∈ entries, dictKeys e = ["mac", "vlan", "interface"]) ∧
    (∀ (addrs entries : List PyVal),
      addrs.mapM macEntryCurrent = .ok entries →
      Mac.mac (currentMacPayload (.list addrs)) =
        .ok (.dict [("entry", .list entries)]) ∧
      ∀ e ∈ entries, dictKeys e = ["mac", "vlan", "interface"]) ∧
    Mac.mac macLegacySample = .ok macCanonSample ∧
    Mac.mac macCurrentSample = .ok macCanonSample := by
  refine ⟨?_, ?_, rfl, rfl⟩
  · intro addrs entries h
    constructor
    · have hstep : Mac.mac (legacyMacPayload (.list addrs)) =
          (addrs.mapM macEntryLegacy) >>= (fun es =>
            .ok (.dict [("entry", .list es)])) := rfl
      rw [hstep, h]
      exact rfl
    · intro e he
      rcases exceptMapM_mem h e he with ⟨a, _, ha⟩
      rcases macEntryLegacy_shape ha with ⟨m, v, i, rfl⟩
      rfl
  · intro addrs entries h
    constructor
    · have hstep : Mac.mac (currentMacPayload (.list addrs)) =
          (addrs.mapM macEntryCurrent) >>= (fun es =>
            .ok (.dict [("entry", .list es)])) := rfl
      rw [hstep, h]
      exact rfl
    · intro e he
      rcases exceptMapM_mem h e he with ⟨a, _, ha⟩
      rcases macEntryCurrent_shape ha with ⟨m, v, i, rfl⟩
      rfl

/-- C4 witness: the general variant parts instantiated on one-entry
tables. -/
theorem c4_mac_schema_variants_witness :
    Mac.mac (legacyMacPayload (.list
      [.dict [("mac-address", .str "00:11:22:33:44:55"),
              ("mac-vlan", .str "v10"),
              ("mac-interfaces-list", .dict
                [("mac-interfaces", .str "ge-0/0/1.0")])]])) =
      .ok (.dict [("entry", .list
        [.dict [("mac", .str "00:11:22:33:44:55"), ("vlan", .str "v10"),
                ("interface", .str "ge-0/0/1.0")]])]) ∧
    Mac.mac (currentMacPayload (.list
      [.dict [("l2ng-l2-mac-address", .str "00:11:22:33:44:55"),
              ("l2ng-l2-mac-vlan-name", .str "v10"),
              ("l2ng-l2-mac-logical-interface", .str "ge-0/0/1.0")]])) =
      .ok (.dict [("entry", .list
        [.dict [("mac", .str "00:11:22:33:44:55"), ("vlan", .str "v10"),
                ("interface", .str "ge-0/0/1.0")]])]) :=
  ⟨(c4_mac_schema_variants.1
      [.dict [("mac-address", .str "00:11:22:33:44:55"),
              ("mac-vlan", .str "v10"),
              ("mac-interfaces-list", .dict
                [("mac-interfaces", .str "ge-0/0/1.0")])]]
      [.dict [("mac", .str "00:11:22:33:44:55"), ("vlan", .str "v10"),
              ("interface", .str "ge-0/0/1.0")]] rfl).1,
   (c4_mac_schema_variants.2.1
      [.dict [("l2ng-l2-mac-address", .str "00:11:22:33:44:55"),
              ("l2ng-l2-mac-vlan-name", .str "v10"),
              ("l2ng-l2-mac-logical-interface", .str "ge-0/0/1.0")]]
      [.dict [("mac", .str "00:11:22:33:44:55"), ("vlan", .str "v10"),
              ("interface", .str "ge-0/0/1.0")]] rfl).1⟩

/-- C2 (amended).  The shape normalizer gives a one-element sequence on a
singular map and an N-element sequence on a list of N, and extractors
that apply it before iterating — here the RADIUS extractor — emit exactly
one canonical record per raw element under either arrival shape; the
MAC-table extractor, however, iterates its raw table without
canonicalization, so a singular map there raises TypeError instead of
producing a one-record table. -/
theorem c2_amended_shape_canonicalization :
    (∀ (kvs : List (String × PyVal)),
      (normalizeShape (.dict kvs)).length = 1) ∧
    (∀ (xs : List PyVal),
      (normalizeShape (.list xs)).length = xs.length) ∧
    (∀ (raw : PyVal),
      (∀ s ∈ normalizeShape raw, ∃ e, radiusEntry s = .ok e) →
      ∃ es, Device.radius (radiusConfigOf raw) =
          .ok (.dict [("radius-servers", .list es)]) ∧
        es.length = (normalizeShape raw).length) ∧
    Mac.mac macSingularLegacy = .error .typeError := by
  refine ⟨fun kvs => rfl, fun xs => rfl, ?_, rfl⟩
  intro raw h
  rcases exceptMapM_exists h with ⟨es, hes, hlen⟩
  refine ⟨es, ?_, hlen⟩
  have hstep : Device.radius (radiusConfigOf raw) =
      ((normalizeShape raw).mapM radiusEntry) >>= (fun entries =>
        .ok (.dict [("radius-servers", .list entries)])) := rfl
  rw [hstep, hes]
  exact rfl

/-- C2 witness: the RADIUS part instantiated on a singular raw server
map, producing exactly one canonical record. -/
theorem c2_amended_shape_canonicalization_witness :
    ∃ es, Device.radius (radiusConfigOf (.dict
        [("name", .str "10.1.1.1"), ("port", .int 1812)])) =
      .ok (.dict [("radius-servers", .list es)]) ∧
      es.length = (normalizeShape (.dict
        [("name", .str "10.1.1.1"), ("port", .int 1812)])).length :=
  c2_amended_shape_canonicalization.2.2.1
    (.dict [("name", .str "10.1.1.1"), ("port", .int 1812)])
    (by
      intro s hs
      have hs2 : s ∈ [PyVal.dict
        [("name", .str "10.1.1.1"), ("port", .int 1812)]] := hs
      rw [List.mem_singleton] at hs2
      subst hs2
      exact ⟨_, rfl⟩)

/-- C3.  When the raw overview reply carries an `output` text containing
`"not running"`, `Ospf.__enter__` stores no further payload (the three
slots keep `None`, i.e. the fetches never happen) and all four extractors
return their present-but-empty canonical shapes, for ANY values of the
would-be configuration/neighbour/interface payloads; when the marker is
absent (no `output` field, or an `output` text without the marker), the
three payloads are fetched and stored, and the concrete supported sample
payloads are parsed into their canonical records. -/
theorem c3_ospf_not_running_gating :
    (∀ (ov : List (String × PyVal)) (out : String) (cfg nbr itf : PyVal),
      lookupStr ov "output" = some (.str out) →
      strContains "not running" out = true →
      ospfEnter (.dict ov) cfg nbr itf = .ok (ospfDownState (.dict ov)) ∧
      Ospf.ospf (ospfDownState (.dict ov)) =
        .ok (.dict [("id", .str ""), ("reference", .str "")]) ∧
      Ospf.areas (ospfDownState (.dict ov)) =
        .ok (.dict [("areas", .str "")]) ∧
      Ospf.neighbours (ospfDownState (.dict ov)) =
        .ok (.dict [("neighbor", .str "")]) ∧
      Ospf.interfaces (ospfDownState (.dict ov)) =
        .ok (.dict [("interface", .list [])])) ∧
    (∀ (ov : List (String × PyVal)) (cfg nbr itf : PyVal),
      lookupStr ov "output" = Option.none →
      ospfEnter (.dict ov) cfg nbr itf =
        .ok ⟨.dict ov, true, cfg, nbr, itf⟩) ∧
    (∀ (ov : List (String × PyVal)) (out : String) (cfg nbr itf : PyVal),
      lookupStr ov "output" = some (.str out) →
      strContains "not running" out = false →
      ospfEnter (.dict ov) cfg nbr itf =
        .ok ⟨.dict ov, true, cfg, nbr, itf⟩) ∧
    Ospf.areas ⟨ospfUpOverview, true, ospfConfigSample,
        ospfNeighbourSample, ospfInterfaceSample⟩ =
      .ok (.dict [("areas", .list
        [.dict [("id", .str ""), ("type", .str "Not Stub"),
                ("authentication", .str "None"),
                ("neighbors", .str "2")]])]) ∧
    Ospf.neighbours ⟨ospfUpOverview, true, ospfConfigSample,
        ospfNeighbourSample, ospfInterfaceSample⟩ =
      .ok (.dict [("neighbor", .list
        [.dict [("address", .str ""), ("interface", .str "ge-0/0/1.0"),
                ("state", .str "Full"), ("id", .str "")]])]) := by
  refine ⟨?_, ?_, ?_, rfl, rfl⟩
  · intro ov out cfg nbr itf hlk hm
    refine ⟨?_, rfl, rfl, rfl, rfl⟩
    simp [ospfEnter, ospfSupported, pyIn, PyVal.sub, hlk, hm, ospfDownState,
      Bind.bind, Except.bind, Pure.pure, Except.pure]
  · intro ov cfg nbr itf hlk
    simp [ospfEnter, ospfSupported, pyIn, PyVal.sub, hlk,
      Bind.bind, Except.bind, Pure.pure, Except.pure]
  · intro ov out cfg nbr itf hlk hm
    simp [ospfEnter, ospfSupported, pyIn, PyVal.sub, hlk, hm,
      Bind.bind, Except.bind, Pure.pure, Except.pure]

/-- C3 witness: the gating parts instantiated on the concrete
not-running overview and on an overview with no `output` field. -/
theorem c3_ospf_not_running_gating_witness :
    ospfEnter ospfDownOverview ospfConfigSample ospfNeighbourSample
        ospfInterfaceSample = .ok (ospfDownState ospfDownOverview) ∧
    Ospf.areas (ospfDownState ospfDownOverview) =
      .ok (.dict [("areas", .str "")]) ∧
    ospfEnter ospfUpOverview ospfConfigSample ospfNeighbourSample
        ospfInterfaceSample =
      .ok ⟨ospfUpOverview, true, ospfConfigSample, ospfNeighbourSample,
           ospfInterfaceSample⟩ := by
  have h1 := c3_ospf_not_running_gating.1
    [("output", .str "\nOSPF instance is not running\n")]
    "\nOSPF instance is not running\n"
    ospfConfigSample ospfNeighbourSample ospfInterfaceSample rfl rfl
  have h2 := c3_ospf_not_running_gating.2.1
    [("ospf-overview-information", .dict
      [("ospf-overview", .dict
        [("ospf-router-id", .str ""),
         ("ospf-area-overview", .dict
           [("ospf-area", .str ""),
            ("ospf-stub-type", .str "Not Stub"),
            ("authentication-type", .str "None"),
            ("ospf-nbr-overview", .dict
              [("ospf-nbr-up-count", .str "2")])])])])]
    ospfConfigSample ospfNeighbourSample ospfInterfaceSample rfl
  exact ⟨h1.1, h1.2.2.1, h2⟩

/-- C8.  The metric of a canonicalized route entry follows the policy of
routing.py: `Direct` or `Local` always get metric 0 (any raw metric is
ignored), `Static` gets 1 when the raw metric is absent and the raw value
(e.g. `"50"`) when present, and every other emitted protocol takes the
raw metric from the reply; the concrete routing payload exercises all
four cases end to end through `Routing.routing_table`. -/
theorem c8_route_metric_policy :
    (∀ (kvs : List (String × PyVal)) (dest : PyVal) (pr : String),
      lookupStr kvs "protocol-name" = some (.str pr) →
      (pr = "Direct" ∨ pr = "Local") →
      lookupStr kvs "nh" = Option.none →
      routeEntryFor dest (.dict kvs) = .ok (some (.dict
        [("protocol", .str pr), ("route", dest), ("metric", .int 0)]))) ∧
    (∀ (kvs : List (String × PyVal)) (dest : PyVal),
      lookupStr kvs "protocol-name" = some (.str "Static") →
      lookupStr kvs "metric" = Option.none →
      lookupStr kvs "nh" = Option.none →
      routeEntryFor dest (.dict kvs) = .ok (some (.dict
        [("protocol", .str "Static"), ("route", dest),
         ("metric", .int 1)]))) ∧
    (∀ (kvs : List (String × PyVal)) (dest mv : PyVal),
      lookupStr kvs "protocol-name" = some (.str "Static") →
      lookupStr kvs "metric" = some mv →
      lookupStr kvs "nh" = Option.none →
      routeEntryFor dest (.dict kvs) = .ok (some (.dict
        [("protocol", .str "Static"), ("route", dest), ("metric", mv)]))) ∧
    (∀ (kvs : List (String × PyVal)) (dest mv : PyVal) (pr : String),
      lookupStr kvs "protocol-name" = some (.str pr) →
      pr ≠ "Direct" → pr ≠ "Local" → pr ≠ "Static" →
      pr ≠ "Access-internal" →
      lookupStr kvs "metric" = some mv →
      lookupStr kvs "nh" = Option.none →
      routeEntryFor dest (.dict kvs) = .ok (some (.dict
        [("protocol", .str pr), ("route", dest), ("metric", mv)]))) ∧
    Routing.routing_table routingSample = .ok routingSampleCanon := by
  refine ⟨?_, ?_, ?_, ?_, rfl⟩
  · intro kvs dest pr hpr hd hnh
    rcases hd with rfl | rfl <;>
      simp [routeEntryFor, PyVal.sub, pyIn, hpr, hnh, pyEqStr, pyValEq,
        Bind.bind, Except.bind, Pure.pure, Except.pure]
  · intro kvs dest hpr hm hnh
    simp [routeEntryFor, PyVal.sub, pyIn, hpr, hm, hnh, pyEqStr, pyValEq,
      Bind.bind, Except.bind, Pure.pure, Except.pure]
  · intro kvs dest mv hpr hm hnh
    simp [routeEntryFor, PyVal.sub, pyIn, hpr, hm, hnh, pyEqStr, pyValEq,
      Bind.bind, Except.bind, Pure.pure, Except.pure]
  · intro kvs dest mv pr hpr h1 h2 h3 h4 hm hnh
    simp [routeEntryFor, PyVal.sub, pyIn, hpr, hm, hnh, pyEqStr, pyValEq,
      Bind.bind, Except.bind, Pure.pure, Except.pure, h1, h2, h3, h4]

/-- C8 witness: the four policy cases instantiated on concrete raw
entries. -/
theorem c8_route_metric_policy_witness :
    routeEntryFor (.str "10.0.0.0/24")
        (.dict [("protocol-name", .str "Direct"), ("metric", .str "99")]) =
      .ok (some (.dict [("protocol", .str "Direct"),
        ("route", .str "10.0.0.0/24"), ("metric", .int 0)])) ∧
    routeEntryFor (.str "0.0.0.0/0")
        (.dict [("protocol-name", .str "Static")]) =
      .ok (some (.dict [("protocol", .str "Static"),
        ("route", .str "0.0.0.0/0"), ("metric", .int 1)])) ∧
    routeEntryFor (.str "192.168.1.0/24")
        (.dict [("protocol-name", .str "Static"),
                ("metric", .str "50")]) =
      .ok (some (.dict [("protocol", .str "Static"),
        ("route", .str "192.168.1.0/24"), ("metric", .str "50")])) ∧
    routeEntryFor (.str "172.16.0.0/16")
        (.dict [("protocol-name", .str "OSPF"), ("metric", .str "10")]) =
      .ok (some (.dict [("protocol", .str "OSPF"),
        ("route", .str "172.16.0.0/16"), ("metric", .str "10")])) :=
  ⟨c8_route_metric_policy.1
      [("protocol-name", .str "Direct"), ("metric", .str "99")]
      (.str "10.0.0.0/24") "Direct" rfl (Or.inl rfl) rfl,
   c8_route_metric_policy.2.1
      [("protocol-name", .str "Static")] (.str "0.0.0.0/0") rfl rfl rfl,
   c8_route_metric_policy.2.2.1
      [("protocol-name", .str "Static"), ("metric", .str "50")]
      (.str "192.168.1.0/24") (.str "50") rfl rfl rfl,
   c8_route_metric_policy.2.2.2.1
      [("protocol-name", .str "OSPF"), ("metric", .str "10")]
      (.str "172.16.0.0/16") (.str "10") "OSPF" rfl
      (by decide) (by decide) (by decide) (by decide) rfl rfl⟩

/-- Items matching no duration unit leave the uptime components
untouched. -/
theorem foldl_upStep_id (items : List String) (acc : UpComps)
    (h : ∀ item ∈ items,
      strContains "days" item = false ∧ strContains "hours" item = false ∧
      strContains "minutes" item = false ∧
      strContains "seconds" item = false) :
    items.foldl upStep acc = acc := by
  induction items generalizing acc with
  | nil => rfl
  | cons x xs ih =>
    have hx := h x (List.mem_cons_self x xs)
    rw [List.foldl_cons]
    rw [show upStep acc x = acc by
      simp [upStep, hx.1, hx.2.1, hx.2.2.1, hx.2.2.2]]
    exact ih acc (fun i hi => h i (List.mem_cons_of_mem x hi))

/-- C6.  The uptime-in-seconds derivation weights the duration
components as days*86400 + hours*3600 + minutes*60 + seconds, treating
every component absent from the native string as zero: a string whose
items carry only minutes and seconds yields minutes*60 + seconds, a
string carrying all four components yields the full weighted sum, and a
string with no recognized component at all yields 0. -/
theorem c6_uptime_derivation :
    (∀ (up_time itemM itemS : String) (m s : Int),
      pySplitStr up_time ", " = [itemM, itemS] →
      strContains "days" itemM = false →
      strContains "hours" itemM = false →
      strContains "minutes" itemM = true →
      pyToInt ((pySplitStr itemM " ").headD "") = some m →
      strContains "days" itemS = false →
      strContains "hours" itemS = false →
      strContains "minutes" itemS = false →
      strContains "seconds" itemS = true →
      pyToInt ((pySplitStr itemS " ").headD "") = some s →
      uptimeSeconds up_time = some (m * 60 + s)) ∧
    (∀ (up_time itemD itemH itemM itemS : String) (d h m s : Int),
      pySplitStr up_time ", " = [itemD, itemH, itemM, itemS] →
      strContains "days" itemD = true →
      pyToInt ((pySplitStr itemD " ").headD "") = some d →
      strContains "days" itemH = false →
      strContains "hours" itemH = true →
      pyToInt ((pySplitStr itemH " ").headD "") = some h →
      strContains "days" itemM = false →
      strContains "hours" itemM = false →
      strContains "minutes" itemM = true →
      pyToInt ((pySplitStr itemM " ").headD "") = some m →
      strContains "days" itemS = false →
      strContains "hours" itemS = false →
      strContains "minutes" itemS = false →
      strContains "seconds" itemS = true →
      pyToInt ((pySplitStr itemS " ").headD "") = some s →
      uptimeSeconds up_time = some (d * 86400 + h * 3600 + m * 60 + s)) ∧
    (∀ (up_time : String),
      (∀ item ∈ pySplitStr up_time ", ",
        strContains "days" item = false ∧
        strContains "hours" item = false ∧
        strContains "minutes" item = false ∧
        strContains "seconds" item = false) →
      uptimeSeconds up_time = some 0) := by
  refine ⟨?_, ?_, ?_⟩
  · intro up_time itemM itemS m s hsplit hd hh hm htm hd2 hh2 hm2 hs2 hts
    simp only [uptimeSeconds, hsplit, List.foldl_cons, List.foldl_nil,
      upStep, hd, hh, hm, hd2, hh2, hm2, hs2, Bool.false_eq_true,
      if_false, if_true]
    simp only [pyIntOf, htm, hts, Bind.bind, Option.bind]
    exact congrArg some (by omega)
  · intro up_time itemD itemH itemM itemS d h m s hsplit
      hd1 htd hd2 hh2 hth hd3 hh3 hm3 htm hd4 hh4 hm4 hs4 hts
    simp only [uptimeSeconds, hsplit, List.foldl_cons, List.foldl_nil,
      upStep, hd1, hd2, hh2, hd3, hh3, hm3, hd4, hh4, hm4, hs4,
      Bool.false_eq_true, if_false, if_true]
    simp only [pyIntOf, htd, hth, htm, hts, Bind.bind, Option.bind]
    exact congrArg some (by omega)
  · intro up_time hall
    simp only [uptimeSeconds, foldl_upStep_id (pySplitStr up_time ", ") _ hall]
    exact rfl

/-- C6 witness: the three component scenarios instantiated on concrete
native uptime strings. -/
theorem c6_uptime_derivation_witness :
    uptimeSeconds "4 minutes, 5 seconds" = some (4 * 60 + 5) ∧
    uptimeSeconds "1 days, 2 hours, 3 minutes, 4 seconds" =
      some (1 * 86400 + 2 * 3600 + 3 * 60 + 4) ∧
    uptimeSeconds "" = some 0 :=
  ⟨c6_uptime_derivation.1 "4 minutes, 5 seconds" "4 minutes" "5 seconds"
      4 5 rfl rfl rfl rfl rfl rfl rfl rfl rfl rfl,
   c6_uptime_derivation.2.1 "1 days, 2 hours, 3 minutes, 4 seconds"
      "1 days" "2 hours" "3 minutes" "4 seconds" 1 2 3 4
      rfl rfl rfl rfl rfl rfl rfl rfl rfl rfl rfl rfl rfl rfl rfl,
   c6_uptime_derivation.2.2 ""
      (by intro item hi; simp [pySplitStr, splitSep, splitSepGo] at hi;
          subst hi; exact ⟨rfl, rfl, rfl, rfl⟩)⟩

/-- `splitOnChar` never returns an empty piece list. -/
theorem splitOnChar_ne_nil (sep : Char) (l : List Char) :
    splitOnChar sep l ≠ [] := by
  induction l with
  | nil => simp [splitOnChar]
  | cons c rest ih =>
    simp only [splitOnChar]
    by_cases hc : c = sep
    · simp [hc]
    · simp only [hc, if_false]
      cases h : splitOnChar sep rest with
      | nil => simp
      | cons piece t => simp

/-- Splitting on a character that does not occur returns the whole
input as the single piece. -/
theorem splitOnChar_of_not_contains (sep : Char) (l : List Char)
    (h : l.contains sep = false) : splitOnChar sep l = [l] := by
  induction l with
  | nil => rfl
  | cons c rest ih =>
    simp only [List.contains_cons, Bool.or_eq_false_iff] at h
    have hc : ¬ c = sep := by
      intro he
      rw [he] at h
      simp at h
    simp only [splitOnChar, hc, if_false]
    rw [ih h.2]

/-- `strJoin` distributes over list append. -/
theorem strJoin_append (a b : List String) :
    strJoin (a ++ b) = strJoin a ++ strJoin b := by
  induction a with
  | nil => simp [strJoin, String.empty_append]
  | cons x xs ih => simp [strJoin, ih, String.append_assoc]

/-- `renderTags` distributes over tag-list append. -/
theorem renderTags_append (a b : List FilterTag) :
    renderTags (a ++ b) = renderTags a ++ renderTags b := by
  simp [renderTags, List.map_append, strJoin_append]

/-- The tag-opening fold of the filter builder appends one `<seg>` per
segment. -/
theorem foldl_open_tags (l : List String) (acc : String) :
    l.foldl (fun a item => a ++ "<" ++ item ++ ">") acc =
      acc ++ strJoin (l.map (fun s => "<" ++ s ++ ">")) := by
  induction l generalizing acc with
  | nil => simp [strJoin, String.append_empty]
  | cons x xs ih =>
    rw [List.foldl_cons, ih]
    simp [strJoin, String.append_assoc]

/-- The tag-closing fold of the filter builder appends one `</seg>` per
segment. -/
theorem foldl_close_tags (l : List String) (acc : String) :
    l.foldl (fun a item => a ++ "</" ++ item ++ ">") acc =
      acc ++ strJoin (l.map (fun s => "</" ++ s ++ ">")) := by
  induction l generalizing acc with
  | nil => simp [strJoin, String.append_empty]
  | cons x xs ih =>
    rw [List.foldl_cons, ih]
    simp [strJoin, String.append_assoc]

/-- `rstrip('>')` of a string ending in `<seg>` with `seg` nonempty and
not itself ending in `'>'` removes exactly the final `'>'`. -/
theorem pyRstripGt_append (t lastSeg : String) (h1 : lastSeg ≠ "")
    (h2 : lastSeg.data.getLast? ≠ some '>') :
    pyRstripGt (t ++ "<" ++ lastSeg ++ ">") = t ++ "<" ++ lastSeg := by
  have hL : lastSeg.data ≠ [] := fun he => h1 (String.ext he)
  apply String.ext
  simp only [pyRstripGt, String.data_append]
  cases hrev : lastSeg.data.reverse with
  | nil => exact absurd (by simpa using hrev) hL
  | cons c rest =>
    have hc : lastSeg.data.getLast? = some c := by
      rw [← List.head?_reverse, hrev]
      rfl
    have hcne : (c = '>') = False := by
      simp only [eq_iff_iff, iff_false]
      intro he
      rw [he] at hc
      exact h2 hc
    rw [show t.data ++ ['<'] ++ lastSeg.data ++ ['>'] =
      (t.data ++ ['<'] ++ lastSeg.data) ++ ['>'] by simp]
    rw [List.reverse_append (t.data ++ ['<'] ++ lastSeg.data) ['>']]
    simp only [List.reverse_cons, List.reverse_nil, List.nil_append,
      List.singleton_append, List.dropWhile_cons]
    simp only [decide_eq_true_eq, if_pos rfl]
    rw [List.reverse_append (t.data ++ ['<']) lastSeg.data, hrev]
    simp only [List.cons_append, List.dropWhile_cons, hcne,
      decide_False, Bool.false_eq_true, if_false, if_true]
    rw [show c :: (rest ++ (t.data ++ ['<']).reverse) =
      (c :: rest) ++ (t.data ++ ['<']).reverse from rfl]
    rw [← hrev]
    simp [List.reverse_append]

/-- One pass of the filter-building loop realizes the spec-side tag
expansion of the parameter, appended to the accumulator. -/
theorem buildOne_renders (acc p : String) (h : WfSpecifier p) :
    buildOneFilter acc p = acc ++ renderTags (tagsOfSpecifier p) := by
  by_cases hc : p.data.contains '/'
  · have hne : pySplit p '/' ≠ [] := by
      simp only [pySplit]
      intro hmap
      exact splitOnChar_ne_nil '/' p.data (List.map_eq_nil_iff.mp hmap)
    rcases List.eq_nil_or_concat (pySplit p '/') with hnil | ⟨init, last, hseg⟩
    · exact absurd hnil hne
    · rw [List.concat_eq_append] at hseg
      have hlastmem : last ∈ pySplit p '/' := by rw [hseg]; simp
      obtain ⟨hlast1, hlast2⟩ := h last hlastmem
      simp only [buildOneFilter, hc, if_true]
      rw [hseg]
      rw [show (init ++ [last]).reverse.drop 1 = init.reverse by
        simp [List.reverse_append]]
      rw [foldl_open_tags]
      rw [show acc ++ strJoin ((init ++ [last]).map
            (fun s => "<" ++ s ++ ">")) =
          (acc ++ strJoin (init.map (fun s => "<" ++ s ++ ">")))
            ++ "<" ++ last ++ ">" by
        simp [List.map_append, strJoin_append, strJoin,
          String.append_assoc, String.append_empty]]
      rw [pyRstripGt_append _ _ hlast1 hlast2]
      rw [foldl_close_tags]
      simp only [tagsOfSpecifier, hc, if_true, hseg]
      simp only [renderTags, List.map_append, List.map_map, strJoin_append,
        strJoin, String.append_assoc, String.append_empty]
      rw [show (renderTag ∘ FilterTag.opening) =
            (fun s : String => "<" ++ (s ++ ">")) by
          funext s; simp [renderTag, Function.comp, String.append_assoc]]
      rw [show (renderTag ∘ FilterTag.closing) =
            (fun s : String => "</" ++ (s ++ ">")) by
          funext s; simp [renderTag, Function.comp, String.append_assoc]]
      simp [renderTag, strJoin, String.append_assoc, String.append_empty]
  · simp only [buildOneFilter, tagsOfSpecifier, hc, Bool.false_eq_true,
      if_false]
    simp [renderTags, strJoin, renderTag, String.append_assoc,
      String.append_empty]

/-- `specTokens` unfolds one specifier at a time. -/
theorem specTokens_cons (p : String) (rest : List String) :
    specTokens (p :: rest) = tagsOfSpecifier p ++ specTokens rest := rfl

/-- The whole filter-building fold renders the spec-side token sequence
of the parameter list. -/
theorem foldl_buildOne (params : List String) (acc : String)
    (h : ∀ p ∈ params, WfSpecifier p) :
    params.foldl buildOneFilter acc = acc ++ renderTags (specTokens params) := by
  induction params generalizing acc with
  | nil => simp [specTokens, renderTags, strJoin, String.append_empty]
  | cons p rest ih =>
    rw [List.foldl_cons, buildOne_renders acc p (h p (List.mem_cons_self p rest))]
    rw [ih _ (fun q hq => h q (List.mem_cons_of_mem p hq))]
    rw [specTokens_cons, renderTags_append, String.append_assoc]

/-- Opening tags are not leaves. -/
theorem countP_isLeaf_opens (l : List String) :
    (l.map FilterTag.opening).countP FilterTag.isLeaf = 0 := by
  induction l with
  | nil => rfl
  | cons x xs ih => simp [List.countP_cons, FilterTag.isLeaf, ih]

/-- Closing tags are not leaves. -/
theorem countP_isLeaf_closes (l : List String) :
    (l.map FilterTag.closing).countP FilterTag.isLeaf = 0 := by
  induction l with
  | nil => rfl
  | cons x xs ih => simp [List.countP_cons, FilterTag.isLeaf, ih]

/-- Each specifier expands to exactly one leaf tag. -/
theorem leafCount_tagsOfSpecifier (p : String) :
    leafCount (tagsOfSpecifier p) = 1 := by
  by_cases hc : p.data.contains '/'
  · simp only [tagsOfSpecifier, hc, if_true, leafCount,
      List.countP_append, countP_isLeaf_opens, countP_isLeaf_closes]
    simp [List.countP_cons, FilterTag.isLeaf]
  · simp only [tagsOfSpecifier, hc, Bool.false_eq_true, if_false]
    simp [leafCount, List.countP_cons, FilterTag.isLeaf]

/-- Opening tags only increment the running depth. -/
theorem leafDepthsAux_opens (l : List String) (d : Nat)
    (rest : List FilterTag) :
    leafDepthsAux d (l.map FilterTag.opening ++ rest) =
      leafDepthsAux (d + l.length) rest := by
  induction l generalizing d with
  | nil => simp
  | cons x xs ih =>
    simp only [List.map_cons, List.cons_append, leafDepthsAux,
      List.append_eq, ih, List.length_cons]
    rw [show d + (xs.length + 1) = d + 1 + xs.length by omega]

/-- Closing tags only decrement the running depth. -/
theorem leafDepthsAux_closes (l : List String) (d : Nat)
    (rest : List FilterTag) :
    leafDepthsAux d (l.map FilterTag.closing ++ rest) =
      leafDepthsAux (d - l.length) rest := by
  induction l generalizing d with
  | nil => simp
  | cons x xs ih =>
    simp only [List.map_cons, List.cons_append, leafDepthsAux,
      List.append_eq, ih, List.length_cons]
    rw [show d - (xs.length + 1) = d - 1 - xs.length by omega]

/-- A specifier's tag block emits exactly one leaf, at depth equal to its
segment count above the surrounding depth, and restores the depth. -/
theorem leafDepthsAux_block (p : String) (d : Nat) (rest : List FilterTag) :
    leafDepthsAux d (tagsOfSpecifier p ++ rest) =
      (d + (pySplit p '/').length) :: leafDepthsAux d rest := by
  by_cases hc : p.data.contains '/'
  · have hne : pySplit p '/' ≠ [] := by
      simp only [pySplit]
      intro hmap
      exact splitOnChar_ne_nil '/' p.data (List.map_eq_nil_iff.mp hmap)
    rcases List.eq_nil_or_concat (pySplit p '/') with hnil | ⟨init, last, hseg⟩
    · exact absurd hnil hne
    · rw [List.concat_eq_append] at hseg
      simp only [tagsOfSpecifier, hc, if_true, hseg]
      rw [show (init ++ [last]).dropLast = init by simp]
      rw [List.append_assoc, List.append_assoc]
      rw [leafDepthsAux_opens]
      simp only [List.singleton_append, leafDepthsAux, List.append_eq,
        List.nil_append]
      rw [leafDepthsAux_closes]
      simp only [List.length_reverse]
      rw [show d + init.length - init.length = d by omega]
      rw [show (init ++ [last]).length = init.length + 1 by simp]
      rw [show d + (init.length + 1) = d + init.length + 1 by omega]
  · simp only [tagsOfSpecifier, hc, Bool.false_eq_true, if_false]
    have hsplit : pySplit p '/' = [p] := by
      simp only [pySplit, splitOnChar_of_not_contains '/' p.data
        (by simpa using hc)]
      simp
    simp [hsplit, leafDepthsAux]

/-- Leaf depths of a whole token sequence, one per specifier. -/
theorem leafDepthsAux_spec (params : List String) (d : Nat) :
    leafDepthsAux d (specTokens params) =
      params.map (fun p => d + (pySplit p '/').length) := by
  induction params with
  | nil => rfl
  | cons p rest ih =>
    rw [specTokens_cons, leafDepthsAux_block, ih]
    rfl

/-- C5.  For any ordered specifier list, the filter built by
`Netconf.get_config` is exactly one `<configuration>` container around
the spec-side expansion of each specifier in input order (open a tag per
segment except the last, a self-closing leaf for the last, closing tags
in reverse order); the leaf-tag count equals the specifier count
(duplicates are kept, so no deduplication happens), a block is emitted
per specifier in input order (`specTokens` is append-homomorphic), and
the leaf of a k-segment specifier sits at nesting depth exactly k inside
the container. -/
theorem c5_filter_builder :
    (∀ (params : List String), (∀ p ∈ params, WfSpecifier p) →
      getConfigFilter params =
        "<configuration>" ++ renderTags (specTokens params)
          ++ "</configuration>") ∧
    (∀ (params : List String),
      leafCount (specTokens params) = params.length) ∧
    (∀ (params : List String),
      leafDepths (specTokens params) =
        params.map (fun p => (pySplit p '/').length)) ∧
    (∀ (ps qs : List String),
      specTokens (ps ++ qs) = specTokens ps ++ specTokens qs) := by
  refine ⟨?_, ?_, ?_, ?_⟩
  · intro params h
    rw [getConfigFilter, foldl_buildOne params _ h]
  · intro params
    induction params with
    | nil => rfl
    | cons p rest ih =>
      rw [specTokens_cons]
      simp only [leafCount, List.countP_append]
      rw [show (tagsOfSpecifier p).countP FilterTag.isLeaf = 1 from
        leafCount_tagsOfSpecifier p]
      simp only [leafCount] at ih
      simp [ih]
      omega
  · intro params
    rw [leafDepths, leafDepthsAux_spec]
    simp
  · intro ps qs
    simp [specTokens, List.map_append, List.flatten_append]

/-- C5 witness: the rendering part instantiated on the spec section 8
example list, producing one balanced region per specifier. -/
theorem c5_filter_builder_witness :
    getConfigFilter ["system/radius-server", "vlans"] =
      "<configuration>"
        ++ renderTags (specTokens ["system/radius-server", "vlans"])
        ++ "</configuration>" ∧
    getConfigFilter ["system/radius-server", "vlans"] =
      "<configuration><system><radius-server/></system><vlans/></configuration>" :=
  ⟨c5_filter_builder.1 ["system/radius-server", "vlans"]
      (by
        intro p hp seg hseg
        have hp2 : p = "system/radius-server" ∨ p = "vlans" := by
          simpa using hp
        rcases hp2 with rfl | rfl
        · rw [show pySplit "system/radius-server" '/' =
            ["system", "radius-server"] from rfl] at hseg
          have hs2 : seg = "system" ∨ seg = "radius-server" := by
            simpa using hseg
          rcases hs2 with rfl | rfl
          · exact ⟨by decide, by decide⟩
          · exact ⟨by decide, by decide⟩
        · rw [show pySplit "vlans" '/' = ["vlans"] from rfl] at hseg
          have hs2 : seg = "vlans" := by simpa using hseg
          subst hs2
          exact ⟨by decide, by decide⟩),
   rfl⟩
